import Mathlib

/-!
StereoGalaxy: a verification development.

A shallow embedding of `StereoGalaxy.cpp` (a rotating spiral galaxy in a
wireframe box, drawn twice for cross-eyed stereo viewing) and theorems about
its frustum arithmetic, its particle generator, its wireframe cube and its
render loop.

Conventions of the embedding:

* `float` values are rationals and `float` arithmetic is exact, except on
  line 283 (the spiral-arm index), whose integer result depends on the
  rounding: there every conversion and operation is rounded to binary32;
* `int` values are integers (window sizes stay far from the machine limits);
* the C library and the platform are a parameter `Platform`: the constant
  `RAND_MAX`, the constant `M_PI` and the functions `tan`, `cos`, `sin`;
* `rand()` reads the next element of a stream of outputs;
* OpenGL and window calls are recorded, in order, as a list of `Cmd`.
-/

namespace StereoGalaxy

/-! ## Platform and constants -/

/-- The parts of the C library the program uses and the source does not define. -/
structure Platform where
  RAND_MAX : Nat
  M_PI : ℚ
  tan : ℚ → ℚ
  cos : ℚ → ℚ
  sin : ℚ → ℚ

def INITIAL_W : Int := 512
def INITIAL_H : Int := 512
def ROTATION_DEG_PER_SEC : ℚ := 30
def NUM_PARTICLES : Nat := 1024
def NUM_SPIRAL_ARMS : Int := 3
def SPIRAL_DENSITY : ℚ := 2
def SPIRAL_WIDTH : ℚ := 2 / 10
def GALAXY_TILT_DEG : ℚ := 30

def COLOR_FRONT : Nat × Nat × Nat := (165, 0, 0)
def COLOR_BACK : Nat × Nat × Nat := (0, 125, 0)
def COLOR_INNER : Nat × Nat × Nat := (0, 0, 155)

/-- The constant `DEG_TO_RAD = float(M_PI / 180.0)`. -/
def DEG_TO_RAD (env : Platform) : ℚ := env.M_PI / 180

/-- The C conversion `int(x)` of a float: truncation toward zero. -/
def toInt (x : ℚ) : Int := Int.tdiv x.num (x.den : Int)

/-- The C conversion `GLubyte(x)` of a float: truncation, then reduction modulo 256. -/
def toGLubyte (x : ℚ) : Nat := (toInt x % 256).toNat

/-- The floor of the binary logarithm of `n` (0 for `n < 2`), by halving at
most `fuel` times. -/
def floorLog2 : Nat → Nat → Nat
  | 0, _ => 0
  | fuel + 1, n => if n < 2 then 0 else floorLog2 fuel (n / 2) + 1

/-- The fraction `a / b` divided by `2 ^ k`, as numerator and denominator. -/
def scaled (a b : Nat) (k : Int) : Nat × Nat :=
  if 0 ≤ k then (a, b * 2 ^ k.toNat) else (a * 2 ^ (-k).toNat, b)

/-- The binary32 value nearest to `a / b` (for `0 < a`, `0 < b`), as the pair
(m, k) that stands for `m * 2 ^ k`: with `2 ^ e ≤ a / b < 2 ^ (e + 1)` the unit
in the last place is `2 ^ (e - 23)`, and `a / b` in that unit is rounded to the
nearest integer, a tie to the even one. -/
def roundSignificand (a b : Nat) : Nat × Int :=
  let e0 : Int := (floorLog2 a a : Int) - (floorLog2 b b : Int)
  let e : Int := if (scaled a b e0).1 < (scaled a b e0).2 then e0 - 1 else e0
  let nd := scaled a b (e - 23)
  let n : Nat := nd.1 / nd.2
  let r : Nat := nd.1 % nd.2
  let m : Nat :=
    if 2 * r < nd.2 then n else if nd.2 < 2 * r then n + 1 else if n % 2 = 0 then n else n + 1
  (m, e - 23)

/-- The rounding of a real value to `float` (IEEE binary32, round to nearest,
ties to even; 24 significant bits, exponent range not limited). -/
def roundBinary32 (x : ℚ) : ℚ :=
  if x = 0 then 0
  else
    let mk := roundSignificand x.num.natAbs x.den
    let mag : ℚ :=
      if 0 ≤ mk.2 then (mk.1 : ℚ) * 2 ^ mk.2.toNat else (mk.1 : ℚ) / 2 ^ (-mk.2).toNat
    if x.num < 0 then -mag else mag

/-! ## Frustum arithmetic of `renderLoop` (lines 96-119) -/

/-- Line 110: `leftEyeFrustumLeft = -frustumHalfWidth + frustumOffset`. -/
def leftEyeFrustumLeft (frustumHalfWidth frustumOffset : ℚ) : ℚ :=
  -frustumHalfWidth + frustumOffset

/-- Line 111: `leftEyeFrustumRight = +frustumHalfWidth + frustumOffset`. -/
def leftEyeFrustumRight (frustumHalfWidth frustumOffset : ℚ) : ℚ :=
  frustumHalfWidth + frustumOffset

/-- Line 112: `rightEyeFrustumLeft = -frustumHalfWidth - frustumOffset`. -/
def rightEyeFrustumLeft (frustumHalfWidth frustumOffset : ℚ) : ℚ :=
  -frustumHalfWidth - frustumOffset

/-- Line 113: `rightEyeFrustumRight = +frustumHalfWidth - frustumOffset`. -/
def rightEyeFrustumRight (frustumHalfWidth frustumOffset : ℚ) : ℚ :=
  frustumHalfWidth - frustumOffset

/-- The local constants `renderLoop` computes in each iteration before drawing. -/
structure Perspective where
  aspect : ℚ
  nearDist : ℚ
  farDist : ℚ
  focalDist : ℚ
  ocularSeparation : ℚ
  fovDegX : ℚ
  frustumHalfWidth : ℚ
  frustumHalfHeight : ℚ
  frustumOffset : ℚ
  leftEyeFrustumLeft : ℚ
  leftEyeFrustumRight : ℚ
  rightEyeFrustumLeft : ℚ
  rightEyeFrustumRight : ℚ
  rotationAmtDeg : ℚ
  objectDist : ℚ
  objectElevation : ℚ
  objectScale : ℚ

/-- Lines 96-119 of `renderLoop`, for a window of `w` by `h` pixels and `t`
seconds on the clock. -/
def perspective (env : Platform) (w h : Int) (t : ℚ) : Perspective :=
  let aspect : ℚ := ((1 / 2 : ℚ) * (w : ℚ)) / (h : ℚ)
  let nearDist : ℚ := 1
  let farDist : ℚ := nearDist * 64
  let focalDist : ℚ := 2
  let ocularSeparation : ℚ := focalDist / 12
  let fovDegX : ℚ := 25
  let frustumHalfWidth : ℚ := nearDist * env.tan (DEG_TO_RAD env * fovDegX / 2)
  let frustumHalfHeight : ℚ := frustumHalfWidth / aspect
  let frustumOffset : ℚ := ((1 / 2 : ℚ) * ocularSeparation) * (nearDist / focalDist)
  { aspect := aspect
    nearDist := nearDist
    farDist := farDist
    focalDist := focalDist
    ocularSeparation := ocularSeparation
    fovDegX := fovDegX
    frustumHalfWidth := frustumHalfWidth
    frustumHalfHeight := frustumHalfHeight
    frustumOffset := frustumOffset
    leftEyeFrustumLeft := leftEyeFrustumLeft frustumHalfWidth frustumOffset
    leftEyeFrustumRight := leftEyeFrustumRight frustumHalfWidth frustumOffset
    rightEyeFrustumLeft := rightEyeFrustumLeft frustumHalfWidth frustumOffset
    rightEyeFrustumRight := rightEyeFrustumRight frustumHalfWidth frustumOffset
    rotationAmtDeg := t * ROTATION_DEG_PER_SEC
    objectDist := nearDist + 1 / 2
    objectElevation := 0
    objectScale := 45 / 100 }

/-! ## Recorded OpenGL and window calls -/

inductive MatrixMode where
  | GL_PROJECTION
  | GL_MODELVIEW
  deriving DecidableEq, Repr

inductive Primitive where
  | GL_LINES
  | GL_POINTS
  deriving DecidableEq, Repr

/-- One call made by the program to OpenGL, to the window or to the console. -/
inductive Cmd where
  | cout (values : List ℚ)
  | glClear
  | glViewport (x y width height : Int)
  | glMatrixMode (mode : MatrixMode)
  | glLoadIdentity
  | glFrustum (left right bottom top zNear zFar : ℚ)
  | glHint
  | glTranslatef (x y z : ℚ)
  | glScalef (x y z : ℚ)
  | glRotatef (angle x y z : ℚ)
  | glPushMatrix
  | glPopMatrix
  | glBegin (mode : Primitive)
  | glEnd
  | glColor3ubv (r g b : Nat)
  | glVertex3f (x y z : ℚ)
  | glVertex3fv (x y z : ℚ)
  | display
  deriving DecidableEq, Repr

/-- The draw commands: every recorded call except the console output. -/
def Cmd.isDraw : Cmd → Bool
  | Cmd.cout _ => false
  | _ => true

/-! ## `drawWireframeCube` (lines 229-264) -/

/-- The call pair `glColor3ubv(c); glVertex3f(x, y, z);` of one source line. -/
def colouredVertex (c : Nat × Nat × Nat) (x y z : ℚ) : List Cmd :=
  [Cmd.glColor3ubv c.1 c.2.1 c.2.2, Cmd.glVertex3f x y z]

/-- The 24 coloured vertices between `glBegin(GL_LINES)` and `glEnd()`, in
source order, each as (colour, x, y, z). -/
def cubeVertices : List ((Nat × Nat × Nat) × ℚ × ℚ × ℚ) :=
  [ (COLOR_FRONT, -1/2, -1/2,  1/2),
    (COLOR_FRONT,  1/2, -1/2,  1/2),
    (COLOR_FRONT,  1/2, -1/2,  1/2),
    (COLOR_FRONT,  1/2,  1/2,  1/2),
    (COLOR_FRONT,  1/2,  1/2,  1/2),
    (COLOR_FRONT, -1/2,  1/2,  1/2),
    (COLOR_FRONT, -1/2,  1/2,  1/2),
    (COLOR_FRONT, -1/2, -1/2,  1/2),
    (COLOR_BACK,  -1/2, -1/2, -1/2),
    (COLOR_BACK,   1/2, -1/2, -1/2),
    (COLOR_BACK,   1/2, -1/2, -1/2),
    (COLOR_BACK,   1/2,  1/2, -1/2),
    (COLOR_BACK,   1/2,  1/2, -1/2),
    (COLOR_BACK,  -1/2,  1/2, -1/2),
    (COLOR_BACK,  -1/2,  1/2, -1/2),
    (COLOR_BACK,  -1/2, -1/2, -1/2),
    (COLOR_INNER, -1/2, -1/2, -1/2),
    (COLOR_INNER, -1/2, -1/2,  1/2),
    (COLOR_INNER, -1/2,  1/2, -1/2),
    (COLOR_INNER, -1/2,  1/2,  1/2),
    (COLOR_INNER,  1/2,  1/2, -1/2),
    (COLOR_INNER,  1/2,  1/2,  1/2),
    (COLOR_INNER,  1/2, -1/2, -1/2),
    (COLOR_INNER,  1/2, -1/2,  1/2) ]

/-- The calls made by `drawWireframeCube()`. -/
def drawWireframeCube : List Cmd :=
  [Cmd.glBegin Primitive.GL_LINES]
    ++ cubeVertices.flatMap (fun v => colouredVertex v.1 v.2.1 v.2.2.1 v.2.2.2)
    ++ [Cmd.glEnd]

/-- A vertex as `GL_LINES` receives it: the current colour and the position. -/
structure Vertex where
  colour : Nat × Nat × Nat
  x : ℚ
  y : ℚ
  z : ℚ
  deriving DecidableEq, Repr

/-- The vertices a call sequence submits: `glColor3ubv` sets the current
colour, `glVertex3f` submits a vertex in the current colour. -/
def verticesOf (current : Nat × Nat × Nat) : List Cmd → List Vertex
  | Cmd.glColor3ubv r g b :: rest => verticesOf (r, g, b) rest
  | Cmd.glVertex3f x y z :: rest =>
      { colour := current, x := x, y := y, z := z } :: verticesOf current rest
  | _ :: rest => verticesOf current rest
  | [] => []

/-- How `GL_LINES` reads a vertex list: vertices 2k and 2k+1 form segment k;
a trailing odd vertex is dropped. -/
def lineSegments {α : Type} : List α → List (α × α)
  | a :: b :: rest => (a, b) :: lineSegments rest
  | _ => []

/-- The line segments drawn by `drawWireframeCube()`. -/
def cubeSegments : List (Vertex × Vertex) :=
  lineSegments (verticesOf (0, 0, 0) drawWireframeCube)

/-- The position of a vertex, without its colour. -/
def Vertex.position (v : Vertex) : ℚ × ℚ × ℚ := (v.x, v.y, v.z)

/-- A corner of the cube with corners (+-0.5, +-0.5, +-0.5). -/
def isCorner (p : ℚ × ℚ × ℚ) : Prop :=
  (p.1 = 1 / 2 ∨ p.1 = -(1 / 2)) ∧ (p.2.1 = 1 / 2 ∨ p.2.1 = -(1 / 2))
    ∧ (p.2.2 = 1 / 2 ∨ p.2.2 = -(1 / 2))

/-- The number of coordinates in which two positions differ. -/
def coordsDiffering (p q : ℚ × ℚ × ℚ) : Nat :=
  (if p.1 = q.1 then 0 else 1) + (if p.2.1 = q.2.1 then 0 else 1)
    + (if p.2.2 = q.2.2 then 0 else 1)

/-- The positions of the two ends of a segment, without the colours. -/
def endPoints (s : Vertex × Vertex) : (ℚ × ℚ × ℚ) × (ℚ × ℚ × ℚ) :=
  (s.1.position, s.2.position)

/-! ## `drawParticles` (lines 266-311) -/

/-- The C library's generator: the stream of values `rand()` returns and the
number of values already consumed. -/
structure RandState where
  outputs : Nat → Nat
  consumed : Nat

/-- One call of `rand()`: the value returned and the generator afterwards. -/
def rand (s : RandState) : Nat × RandState :=
  (s.outputs s.consumed, { outputs := s.outputs, consumed := s.consumed + 1 })

/-- The locals of one iteration of the generation loop (lines 278-298). -/
structure Particle where
  colorR : Nat
  colorG : Nat
  colorB : Nat
  arm : Int
  distToCenter : ℚ
  angleDeg : ℚ
  fuzzX : ℚ
  fuzzY : ℚ
  fuzzZ : ℚ
  posX : ℚ
  posY : ℚ
  posZ : ℚ

/-- The body of the generation loop up to the array stores: eight calls of
`rand()` in statement order, and the values computed from them. On line 283
`float(rand())`, `RAND_MAX + 1.0f` (the conversion of `RAND_MAX` and the sum),
the quotient and the product with `NUM_SPIRAL_ARMS` are each rounded to
binary32 before `int(...)` truncates. -/
def generateParticle (env : Platform) (s0 : RandState) : Particle × RandState :=
  let d0 := rand s0
  let colorR := toGLubyte (255 * ((d0.1 : ℚ) / (env.RAND_MAX : ℚ)))
  let d1 := rand d0.2
  let colorG := toGLubyte (255 * ((d1.1 : ℚ) / (env.RAND_MAX : ℚ)))
  let d2 := rand d1.2
  let colorB := toGLubyte (255 * ((d2.1 : ℚ) / (env.RAND_MAX : ℚ)))
  let d3 := rand d2.2
  let arm : Int :=
    toInt (roundBinary32 ((NUM_SPIRAL_ARMS : ℚ)
      * roundBinary32 (roundBinary32 (d3.1 : ℚ)
          / roundBinary32 (roundBinary32 (env.RAND_MAX : ℚ) + 1))))
  let d4 := rand d3.2
  let distToCenter : ℚ := (d4.1 : ℚ) / (env.RAND_MAX : ℚ)
  let angleDeg : ℚ :=
    ((Int.tdiv (arm * 360) NUM_SPIRAL_ARMS : Int) : ℚ) + distToCenter * SPIRAL_DENSITY * 360
  let d5 := rand d4.2
  let fuzzX : ℚ := distToCenter * SPIRAL_WIDTH * (-(1 / 2) + (d5.1 : ℚ) / (env.RAND_MAX : ℚ))
  let d6 := rand d5.2
  let fuzzY : ℚ := distToCenter * SPIRAL_WIDTH * (-(1 / 2) + (d6.1 : ℚ) / (env.RAND_MAX : ℚ))
  let d7 := rand d6.2
  let fuzzZ : ℚ :=
    (1 / 2) * (1 - distToCenter) * (1 - distToCenter) * SPIRAL_WIDTH
      * (-(1 / 2) + (d7.1 : ℚ) / (env.RAND_MAX : ℚ))
  ({ colorR := colorR
     colorG := colorG
     colorB := colorB
     arm := arm
     distToCenter := distToCenter
     angleDeg := angleDeg
     fuzzX := fuzzX
     fuzzY := fuzzY
     fuzzZ := fuzzZ
     posX := fuzzX + distToCenter * env.cos (DEG_TO_RAD env * angleDeg)
     posY := fuzzY + distToCenter * env.sin (DEG_TO_RAD env * angleDeg)
     posZ := fuzzZ }, d7.2)

/-- The function-static variables of `drawParticles` and the generator they
are filled from. -/
structure ParticleState where
  POINT_COLORS : List Nat
  POINT_POSITIONS : List ℚ
  initialized : Int
  rng : RandState

/-- Program start: zero-initialised static arrays of `NUM_PARTICLES * 3`
elements, `initialized = 0`. -/
def ParticleState.start (rng : RandState) : ParticleState :=
  { POINT_COLORS := List.replicate (NUM_PARTICLES * 3) 0
    POINT_POSITIONS := List.replicate (NUM_PARTICLES * 3) 0
    initialized := 0
    rng := rng }

/-- Iteration `i` of the generation loop: compute the particle, store it at
indices `i*3 + 0 .. i*3 + 2` of both arrays. -/
def generateStep (env : Platform) (st : ParticleState) (i : Nat) : ParticleState :=
  let p := generateParticle env st.rng
  { POINT_COLORS :=
      ((st.POINT_COLORS.set (i * 3 + 0) p.1.colorR).set (i * 3 + 1) p.1.colorG).set
        (i * 3 + 2) p.1.colorB
    POINT_POSITIONS :=
      ((st.POINT_POSITIONS.set (i * 3 + 0) p.1.posX).set (i * 3 + 1) p.1.posY).set
        (i * 3 + 2) p.1.posZ
    initialized := st.initialized
    rng := p.2 }

/-- The first `n` iterations of the loop `for (i = 0; i < n; ++i)`. -/
def generateLoop (env : Platform) (n : Nat) (st : ParticleState) : ParticleState :=
  (List.range n).foldl (generateStep env) st

/-- The locals of iteration `i` of the generation loop started in state `st`. -/
def particleAt (env : Platform) (st : ParticleState) (i : Nat) : Particle :=
  (generateParticle env (generateLoop env i st).rng).1

/-- The `GL_POINTS` block: for each particle its colour and its position, read
from the arrays. -/
def emitParticles (st : ParticleState) : List Cmd :=
  [Cmd.glBegin Primitive.GL_POINTS]
    ++ (List.range NUM_PARTICLES).flatMap (fun i =>
        [ Cmd.glColor3ubv (st.POINT_COLORS.getD (i * 3) 0)
            (st.POINT_COLORS.getD (i * 3 + 1) 0) (st.POINT_COLORS.getD (i * 3 + 2) 0),
          Cmd.glVertex3fv (st.POINT_POSITIONS.getD (i * 3) 0)
            (st.POINT_POSITIONS.getD (i * 3 + 1) 0) (st.POINT_POSITIONS.getD (i * 3 + 2) 0) ])
    ++ [Cmd.glEnd]

/-- One call of `drawParticles()`: the static state afterwards and the calls made. -/
def drawParticles (env : Platform) (st : ParticleState) : ParticleState × List Cmd :=
  let st1 :=
    if st.initialized = 0 then
      generateLoop env NUM_PARTICLES
        { POINT_COLORS := st.POINT_COLORS
          POINT_POSITIONS := st.POINT_POSITIONS
          initialized := 1
          rng := st.rng }
    else st
  (st1, emitParticles st1)

/-- The state and the calls of call number `n + 1` of `drawParticles()`, counting
from the state `st` before the first of them. -/
def drawParticlesCall (env : Platform) : Nat → ParticleState → ParticleState × List Cmd
  | 0, st => drawParticles env st
  | n + 1, st => drawParticlesCall env n (drawParticles env st).1

/-- The (colour, position) points of a `GL_POINTS` block, in order. -/
def pointsOf : List Cmd → List ((Nat × Nat × Nat) × (ℚ × ℚ × ℚ))
  | Cmd.glColor3ubv r g b :: Cmd.glVertex3fv x y z :: rest =>
      ((r, g, b), (x, y, z)) :: pointsOf rest
  | _ :: rest => pointsOf rest
  | [] => []

/-! ## `renderLoop` (lines 71-227) -/

/-- An event returned by `app.pollEvent(event)`. -/
inductive Event where
  | Closed
  | Resized (width height : Nat)
  | Other
  deriving DecidableEq, Repr

/-- The window, the function-static variables of `renderLoop` and the static
state of `drawParticles`. -/
structure LoopState where
  isOpen : Bool
  w : Int
  h : Int
  printed : Int
  particles : ParticleState

/-- The body of the `pollEvent` loop (lines 84-93) for one event. -/
def handleEvent (st : LoopState) (event : Event) : LoopState :=
  let st1 : LoopState :=
    match event with
    | Event.Closed =>
        { isOpen := false, w := st.w, h := st.h, printed := st.printed,
          particles := st.particles }
    | _ => st
  match event with
  | Event.Resized width height =>
      { isOpen := st1.isOpen, w := (width : Int), h := (height : Int), printed := 0,
        particles := st1.particles }
  | _ => st1

/-- The loop `while (app.pollEvent(event))` over the events it returns. -/
def pollEvents (st : LoopState) (events : List Event) : LoopState :=
  events.foldl handleEvent st

/-- Lines 121-143: the parameters are printed when `printed` is zero. -/
def printParams (printed : Int) (p : Perspective) : List Cmd :=
  if printed = 0 then
    [Cmd.cout [p.aspect, p.nearDist, p.farDist, p.focalDist, p.ocularSeparation, p.fovDegX,
      p.frustumHalfWidth, p.frustumHalfHeight, p.frustumOffset, p.leftEyeFrustumLeft,
      p.leftEyeFrustumRight, p.rightEyeFrustumLeft, p.rightEyeFrustumRight, p.objectDist,
      p.objectElevation, p.objectScale]]
  else []

/-- Lines 155-185, "DRAW LEFT SIDE: (right eye perspective)", with the calls
`particles` made by `drawParticles()`. -/
def drawLeftSide (p : Perspective) (w h : Int) (particles : List Cmd) : List Cmd :=
  [ Cmd.glViewport 0 0 (Int.tdiv w 2) h,
    Cmd.glMatrixMode MatrixMode.GL_PROJECTION,
    Cmd.glLoadIdentity,
    Cmd.glFrustum p.rightEyeFrustumLeft p.rightEyeFrustumRight (-p.frustumHalfHeight)
      p.frustumHalfHeight p.nearDist p.farDist,
    Cmd.glHint,
    Cmd.glMatrixMode MatrixMode.GL_MODELVIEW,
    Cmd.glLoadIdentity,
    Cmd.glTranslatef (-p.ocularSeparation / 2) p.objectElevation (-p.objectDist),
    Cmd.glScalef p.objectScale (p.objectScale / p.aspect) p.objectScale,
    Cmd.glRotatef p.rotationAmtDeg 0 1 0 ]
    ++ drawWireframeCube
    ++ [ Cmd.glPushMatrix,
         Cmd.glScalef (1 / 2) (1 / 2) (1 / 2),
         Cmd.glRotatef GALAXY_TILT_DEG 1 0 0,
         Cmd.glRotatef (-p.rotationAmtDeg * 2) 0 0 1 ]
    ++ particles
    ++ [Cmd.glPopMatrix]

/-- Lines 192-222, "DRAW RIGHT SIDE: (left eye perspective)", with the calls
`particles` made by `drawParticles()`. -/
def drawRightSide (p : Perspective) (w h : Int) (particles : List Cmd) : List Cmd :=
  [ Cmd.glViewport (Int.tdiv w 2 + 1) 0 (Int.tdiv w 2) h,
    Cmd.glMatrixMode MatrixMode.GL_PROJECTION,
    Cmd.glLoadIdentity,
    Cmd.glFrustum p.leftEyeFrustumLeft p.leftEyeFrustumRight (-p.frustumHalfHeight)
      p.frustumHalfHeight p.nearDist p.farDist,
    Cmd.glHint,
    Cmd.glMatrixMode MatrixMode.GL_MODELVIEW,
    Cmd.glLoadIdentity,
    Cmd.glTranslatef (p.ocularSeparation / 2) p.objectElevation (-p.objectDist),
    Cmd.glScalef p.objectScale (p.objectScale / p.aspect) p.objectScale,
    Cmd.glRotatef p.rotationAmtDeg 0 1 0 ]
    ++ drawWireframeCube
    ++ [ Cmd.glPushMatrix,
         Cmd.glScalef (1 / 2) (1 / 2) (1 / 2),
         Cmd.glRotatef GALAXY_TILT_DEG 1 0 0,
         Cmd.glRotatef (-p.rotationAmtDeg * 2) 0 0 1 ]
    ++ particles
    ++ [Cmd.glPopMatrix]

/-- Lines 96-225: the body of the outer loop after the events were polled,
with `t` the seconds read from the clock. -/
def drawFrame (env : Platform) (st : LoopState) (t : ℚ) : LoopState × List Cmd :=
  let p := perspective env st.w st.h t
  let left := drawParticles env st.particles
  let right := drawParticles env left.1
  ({ isOpen := st.isOpen, w := st.w, h := st.h,
     printed := if st.printed = 0 then 1 else st.printed, particles := right.1 },
   printParams st.printed p
     ++ [Cmd.glClear]
     ++ drawLeftSide p st.w st.h left.2
     ++ drawRightSide p st.w st.h right.2
     ++ [Cmd.display])

/-- One iteration of `while (app.isOpen())`: poll the pending events, then
draw the frame. -/
def renderIteration (env : Platform) (st : LoopState) (events : List Event) (t : ℚ) :
    LoopState × List Cmd :=
  drawFrame env (pollEvents st events) t

/-- The loop `while (app.isOpen())`. The host is the list `frames`: for each
iteration the events `pollEvent` returns and the clock reading. The loop
stops when the window is closed (or the list ends). -/
def renderLoop (env : Platform) : List (List Event × ℚ) → LoopState → LoopState × List Cmd
  | [], st => (st, [])
  | frame :: rest, st =>
      if st.isOpen then
        let r := renderIteration env st frame.1 frame.2
        let r2 := renderLoop env rest r.1
        (r2.1, r.2 ++ r2.2)
      else (st, [])

/-- The state in which `main` calls `renderLoop`. -/
def LoopState.start (rng : RandState) : LoopState :=
  { isOpen := true, w := INITIAL_W, h := INITIAL_H, printed := 0,
    particles := ParticleState.start rng }

/-- The viewport rectangle set by the first `glViewport` call of a call list. -/
def firstViewport : List Cmd → Option (Int × Int × Int × Int)
  | Cmd.glViewport x y width height :: _ => some (x, y, width, height)
  | _ :: rest => firstViewport rest
  | [] => none

/-- The right edge `x + width` of a viewport rectangle (x, y, width, height). -/
def rightEdge (r : Int × Int × Int × Int) : Int := r.1 + r.2.2.1

/-- One eye's draw pass as the specification words it: the viewport at
`viewportX`, the frustum with horizontal bounds `frustumLeft`, `frustumRight`,
the view translation `translateX` along x and -(nearDist + 0.5) along z, the
scale 0.45 with y divided by the aspect, the cube rotation, the cube, and in a
saved transform the galaxy scale 0.5, the tilt of 30 degrees, the spin of -2
times the rotation angle and the particles. -/
def eyePass (viewportX : Int) (frustumLeft frustumRight translateX : ℚ) (w h : Int)
    (aspect frustumHalfHeight nearDist farDist rotation : ℚ) (cube particles : List Cmd) :
    List Cmd :=
  [ Cmd.glViewport viewportX 0 (Int.tdiv w 2) h,
    Cmd.glMatrixMode MatrixMode.GL_PROJECTION,
    Cmd.glLoadIdentity,
    Cmd.glFrustum frustumLeft frustumRight (-frustumHalfHeight) frustumHalfHeight nearDist farDist,
    Cmd.glHint,
    Cmd.glMatrixMode MatrixMode.GL_MODELVIEW,
    Cmd.glLoadIdentity,
    Cmd.glTranslatef translateX 0 (-(nearDist + 1 / 2)),
    Cmd.glScalef (45 / 100) (45 / 100 / aspect) (45 / 100),
    Cmd.glRotatef rotation 0 1 0 ]
    ++ cube
    ++ [ Cmd.glPushMatrix,
         Cmd.glScalef (1 / 2) (1 / 2) (1 / 2),
         Cmd.glRotatef 30 1 0 0,
         Cmd.glRotatef (-2 * rotation) 0 0 1 ]
    ++ particles
    ++ [Cmd.glPopMatrix]

/-- A platform for concrete evaluation: `RAND_MAX = 32767`, a rational `M_PI`
and rational stand-ins for the trigonometric functions. -/
def samplePlatform : Platform :=
  { RAND_MAX := 32767
    M_PI := 355 / 113
    tan := fun x => x
    cos := fun x => 1 - x * x / 2
    sin := fun x => x }

/-! ## Sample inputs -/

/-- A platform with `RAND_MAX = 2147483647`, as in the GNU C library. -/
def gnuPlatform : Platform :=
  { RAND_MAX := 2147483647
    M_PI := 355 / 113
    tan := fun x => x
    cos := fun x => 1 - x * x / 2
    sin := fun x => x }

/-- A generator that returns 2147483647 at every call. -/
def topRand : RandState :=
  { outputs := fun _ => 2147483647, consumed := 0 }

/-- A generator whose outputs cycle through 0 .. 32767. -/
def sampleRand : RandState :=
  { outputs := fun n => (n * 7919) % 32768, consumed := 0 }

/-! ## Lemmas on conversions and arrays -/

theorem toInt_eq_floor (x : ℚ) (hx : 0 ≤ x) : toInt x = ⌊x⌋ := by
  have hfloor : ⌊x⌋ = x.num / (x.den : Int) := by
    conv_lhs => rw [← Rat.num_div_den x]
    exact Rat.floor_intCast_div_natCast _ _
  rw [hfloor]
  exact Int.tdiv_eq_ediv (Rat.num_nonneg.mpr hx) (by positivity)

theorem getD_set_same {α : Type} (l : List α) (i : Nat) (v d : α) (h : i < l.length) :
    (l.set i v).getD i d = v := by
  simp [List.getD_eq_getElem?_getD, h]

theorem getD_set_other {α : Type} (l : List α) (i j : Nat) (v d : α) (h : i ≠ j) :
    (l.set i v).getD j d = l.getD j d := by
  simp [List.getD_eq_getElem?_getD, List.getElem?_set_ne h]

/-- The ratio `float(rand()) / RAND_MAX` lies in [0, 1]. -/
theorem unit_ratio (r m : Nat) (hm : 0 < m) (hr : r ≤ m) :
    0 ≤ (r : ℚ) / (m : ℚ) ∧ (r : ℚ) / (m : ℚ) ≤ 1 := by
  have hmq : (0 : ℚ) < (m : ℚ) := by exact_mod_cast hm
  have hrq : (r : ℚ) ≤ (m : ℚ) := by exact_mod_cast hr
  exact ⟨by positivity, (div_le_one hmq).mpr hrq⟩

/-! ## Lemmas on the generation loop -/

theorem generateParticle_outputs (env : Platform) (s : RandState) :
    (generateParticle env s).2.outputs = s.outputs := rfl

theorem generateParticle_consumed (env : Platform) (s : RandState) :
    (generateParticle env s).2.consumed = s.consumed + 8 := rfl

theorem generateLoop_succ (env : Platform) (n : Nat) (st : ParticleState) :
    generateLoop env (n + 1) st = generateStep env (generateLoop env n st) n := by
  simp [generateLoop, List.range_succ, List.foldl_append]

theorem generateLoop_outputs (env : Platform) (n : Nat) (st : ParticleState) :
    (generateLoop env n st).rng.outputs = st.rng.outputs := by
  induction n with
  | zero => rfl
  | succ k ih => rw [generateLoop_succ]; exact ih

theorem generateLoop_consumed (env : Platform) (n : Nat) (st : ParticleState) :
    (generateLoop env n st).rng.consumed = st.rng.consumed + 8 * n := by
  induction n with
  | zero => rfl
  | succ k ih =>
    rw [generateLoop_succ]
    show (generateLoop env k st).rng.consumed + 8 = _
    rw [ih]; ring

theorem generateLoop_initialized (env : Platform) (n : Nat) (st : ParticleState) :
    (generateLoop env n st).initialized = st.initialized := by
  induction n with
  | zero => rfl
  | succ k ih => rw [generateLoop_succ]; exact ih

/-- The generator after `n` iterations depends only on the generator at the start. -/
theorem generateLoop_rng_congr (env : Platform) (n : Nat) (st st2 : ParticleState)
    (h : st.rng = st2.rng) : (generateLoop env n st).rng = (generateLoop env n st2).rng := by
  induction n with
  | zero => exact h
  | succ k ih =>
    rw [generateLoop_succ, generateLoop_succ]
    show (generateParticle env (generateLoop env k st).rng).2
      = (generateParticle env (generateLoop env k st2).rng).2
    rw [ih]

theorem particleAt_congr (env : Platform) (i : Nat) (st st2 : ParticleState)
    (h : st.rng = st2.rng) : particleAt env st i = particleAt env st2 i := by
  unfold particleAt
  rw [generateLoop_rng_congr env i st st2 h]

theorem generateLoop_lengths (env : Platform) (n : Nat) (st : ParticleState) :
    (generateLoop env n st).POINT_COLORS.length = st.POINT_COLORS.length
    ∧ (generateLoop env n st).POINT_POSITIONS.length = st.POINT_POSITIONS.length := by
  induction n with
  | zero => exact ⟨rfl, rfl⟩
  | succ k ih =>
    rw [generateLoop_succ]
    simp only [generateStep, List.length_set]
    exact ih

/-- After `n` iterations, particle `i < n` is stored at indices `i*3 .. i*3+2`
of both arrays. -/
theorem generateLoop_stored (env : Platform) (n : Nat) (st : ParticleState) (i : Nat)
    (hi : i < n) (hc : n * 3 ≤ st.POINT_COLORS.length)
    (hp : n * 3 ≤ st.POINT_POSITIONS.length) :
    (generateLoop env n st).POINT_COLORS.getD (i * 3) 0 = (particleAt env st i).colorR
    ∧ (generateLoop env n st).POINT_COLORS.getD (i * 3 + 1) 0 = (particleAt env st i).colorG
    ∧ (generateLoop env n st).POINT_COLORS.getD (i * 3 + 2) 0 = (particleAt env st i).colorB
    ∧ (generateLoop env n st).POINT_POSITIONS.getD (i * 3) 0 = (particleAt env st i).posX
    ∧ (generateLoop env n st).POINT_POSITIONS.getD (i * 3 + 1) 0 = (particleAt env st i).posY
    ∧ (generateLoop env n st).POINT_POSITIONS.getD (i * 3 + 2) 0 = (particleAt env st i).posZ := by
  induction n with
  | zero => omega
  | succ k ih =>
    have hlen := generateLoop_lengths env k st
    rw [generateLoop_succ]
    rcases Nat.lt_succ_iff_lt_or_eq.mp hi with hlt | heq
    · have prev := ih hlt (by omega) (by omega)
      simp only [generateStep, Nat.add_zero]
      rw [getD_set_other _ _ _ _ _ (by omega), getD_set_other _ _ _ _ _ (by omega),
        getD_set_other _ _ _ _ _ (by omega), getD_set_other _ _ _ _ _ (by omega),
        getD_set_other _ _ _ _ _ (by omega), getD_set_other _ _ _ _ _ (by omega),
        getD_set_other _ _ _ _ _ (by omega), getD_set_other _ _ _ _ _ (by omega),
        getD_set_other _ _ _ _ _ (by omega), getD_set_other _ _ _ _ _ (by omega),
        getD_set_other _ _ _ _ _ (by omega), getD_set_other _ _ _ _ _ (by omega),
        getD_set_other _ _ _ _ _ (by omega), getD_set_other _ _ _ _ _ (by omega),
        getD_set_other _ _ _ _ _ (by omega), getD_set_other _ _ _ _ _ (by omega),
        getD_set_other _ _ _ _ _ (by omega), getD_set_other _ _ _ _ _ (by omega)]
      exact prev
    · subst heq
      simp only [generateStep, Nat.add_zero]
      have hc2 : i * 3 + 2 < (generateLoop env i st).POINT_COLORS.length := by omega
      have hp2 : i * 3 + 2 < (generateLoop env i st).POINT_POSITIONS.length := by omega
      refine ⟨?_, ?_, ?_, ?_, ?_, ?_⟩
      · rw [getD_set_other _ _ _ _ _ (by omega), getD_set_other _ _ _ _ _ (by omega),
          getD_set_same _ _ _ _ (by omega)]
        rfl
      · rw [getD_set_other _ _ _ _ _ (by omega),
          getD_set_same _ _ _ _ (by rw [List.length_set]; omega)]
        rfl
      · rw [getD_set_same _ _ _ _ (by rw [List.length_set, List.length_set]; omega)]
        rfl
      · rw [getD_set_other _ _ _ _ _ (by omega), getD_set_other _ _ _ _ _ (by omega),
          getD_set_same _ _ _ _ (by omega)]
        rfl
      · rw [getD_set_other _ _ _ _ _ (by omega),
          getD_set_same _ _ _ _ (by rw [List.length_set]; omega)]
        rfl
      · rw [getD_set_same _ _ _ _ (by rw [List.length_set, List.length_set]; omega)]
        rfl

theorem particleAt_arm (env : Platform) (st : ParticleState) (i : Nat) :
    (particleAt env st i).arm
      = toInt (roundBinary32 ((NUM_SPIRAL_ARMS : ℚ)
          * roundBinary32
              (roundBinary32 (st.rng.outputs (st.rng.consumed + 8 * i + 3) : ℚ)
                / roundBinary32 (roundBinary32 (env.RAND_MAX : ℚ) + 1)))) := by
  show toInt (roundBinary32 ((NUM_SPIRAL_ARMS : ℚ)
      * roundBinary32
          (roundBinary32 (((generateLoop env i st).rng.outputs
              ((generateLoop env i st).rng.consumed + 1 + 1 + 1) : Nat) : ℚ)
            / roundBinary32 (roundBinary32 (env.RAND_MAX : ℚ) + 1)))) = _
  rw [generateLoop_outputs, generateLoop_consumed]

theorem particleAt_distToCenter (env : Platform) (st : ParticleState) (i : Nat) :
    (particleAt env st i).distToCenter
      = (st.rng.outputs (st.rng.consumed + 8 * i + 4) : ℚ) / (env.RAND_MAX : ℚ) := by
  show ((((generateLoop env i st).rng.outputs
      ((generateLoop env i st).rng.consumed + 1 + 1 + 1 + 1) : Nat) : ℚ)) / (env.RAND_MAX : ℚ) = _
  rw [generateLoop_outputs, generateLoop_consumed]

theorem particleAt_fuzz (env : Platform) (st : ParticleState) (i : Nat) :
    (particleAt env st i).fuzzX
      = (particleAt env st i).distToCenter * SPIRAL_WIDTH
          * (-(1 / 2) + (st.rng.outputs (st.rng.consumed + 8 * i + 5) : ℚ) / (env.RAND_MAX : ℚ))
    ∧ (particleAt env st i).fuzzY
      = (particleAt env st i).distToCenter * SPIRAL_WIDTH
          * (-(1 / 2) + (st.rng.outputs (st.rng.consumed + 8 * i + 6) : ℚ) / (env.RAND_MAX : ℚ))
    ∧ (particleAt env st i).fuzzZ
      = (1 / 2) * (1 - (particleAt env st i).distToCenter)
          * (1 - (particleAt env st i).distToCenter) * SPIRAL_WIDTH
          * (-(1 / 2) + (st.rng.outputs (st.rng.consumed + 8 * i + 7) : ℚ) / (env.RAND_MAX : ℚ)) := by
  have ho := generateLoop_outputs env i st
  have hc := generateLoop_consumed env i st
  refine ⟨?_, ?_, ?_⟩
  · show (particleAt env st i).distToCenter * SPIRAL_WIDTH * (-(1 / 2)
      + (((generateLoop env i st).rng.outputs
          ((generateLoop env i st).rng.consumed + 1 + 1 + 1 + 1 + 1) : Nat) : ℚ)
        / (env.RAND_MAX : ℚ)) = _
    rw [ho, hc]
  · show (particleAt env st i).distToCenter * SPIRAL_WIDTH * (-(1 / 2)
      + (((generateLoop env i st).rng.outputs
          ((generateLoop env i st).rng.consumed + 1 + 1 + 1 + 1 + 1 + 1) : Nat) : ℚ)
        / (env.RAND_MAX : ℚ)) = _
    rw [ho, hc]
  · show (1 / 2) * (1 - (particleAt env st i).distToCenter)
        * (1 - (particleAt env st i).distToCenter) * SPIRAL_WIDTH * (-(1 / 2)
      + (((generateLoop env i st).rng.outputs
          ((generateLoop env i st).rng.consumed + 1 + 1 + 1 + 1 + 1 + 1 + 1) : Nat) : ℚ)
        / (env.RAND_MAX : ℚ)) = _
    rw [ho, hc]

/-- A product `c * (-(1/2) + u)` with `0 ≤ c` and `u` in [0, 1] is at most `c / 2`
in absolute value. -/
theorem abs_centred_le (c u : ℚ) (hc : 0 ≤ c) (h0 : 0 ≤ u) (h1 : u ≤ 1) :
    |c * (-(1 / 2) + u)| ≤ c / 2 := by
  rw [abs_le]
  constructor <;> nlinarith

/-! ## Lemmas on `drawParticles` -/

theorem drawParticles_calls (env : Platform) (st : ParticleState) :
    (drawParticles env st).2 = emitParticles (drawParticles env st).1 := rfl

theorem drawParticles_first (env : Platform) (st : ParticleState) (h : st.initialized = 0) :
    (drawParticles env st).1
      = generateLoop env NUM_PARTICLES
          { POINT_COLORS := st.POINT_COLORS
            POINT_POSITIONS := st.POINT_POSITIONS
            initialized := 1
            rng := st.rng } := by
  simp [drawParticles, h]

theorem drawParticles_later (env : Platform) (st : ParticleState) (h : st.initialized ≠ 0) :
    drawParticles env st = (st, emitParticles st) := by
  simp [drawParticles, h]

theorem drawParticles_initialized (env : Platform) (st : ParticleState) :
    (drawParticles env st).1.initialized ≠ 0 := by
  by_cases h : st.initialized = 0
  · rw [drawParticles_first env st h, generateLoop_initialized]
    exact one_ne_zero
  · rw [drawParticles_later env st h]
    exact h

/-- A second call of `drawParticles()` changes nothing and repeats the calls
of the call before it. -/
theorem drawParticles_twice (env : Platform) (st : ParticleState) :
    drawParticles env (drawParticles env st).1 = drawParticles env st := by
  rw [drawParticles_later env _ (drawParticles_initialized env st)]
  rfl

theorem drawParticlesCall_later (env : Platform) (n : Nat) (st : ParticleState)
    (h : st.initialized ≠ 0) : drawParticlesCall env n st = (st, emitParticles st) := by
  induction n with
  | zero => exact drawParticles_later env st h
  | succ k ih =>
    show drawParticlesCall env k (drawParticles env st).1 = _
    rw [drawParticles_later env st h]
    exact ih

theorem flatMap_pair_length {α β : Type} (f g : α → β) (l : List α) :
    (l.flatMap (fun i => [f i, g i])).length = 2 * l.length := by
  induction l with
  | nil => rfl
  | cons a t ih =>
    rw [List.flatMap_cons, List.length_append, ih, List.length_cons]
    show 2 + 2 * t.length = 2 * (t.length + 1)
    omega

/-- The `GL_POINTS` block is `glBegin`, two calls for each particle, `glEnd`. -/
theorem emitParticles_length (st : ParticleState) :
    (emitParticles st).length = 2 * NUM_PARTICLES + 2 := by
  unfold emitParticles
  rw [List.length_append, List.length_append, flatMap_pair_length, List.length_range]
  show 1 + 2 * NUM_PARTICLES + 1 = 2 * NUM_PARTICLES + 2
  omega

theorem pointsOf_flatMap (cs : List Nat) (ps : List ℚ) (l : List Nat) (rest : List Cmd) :
    pointsOf (l.flatMap (fun i =>
        [ Cmd.glColor3ubv (cs.getD (i * 3) 0) (cs.getD (i * 3 + 1) 0) (cs.getD (i * 3 + 2) 0),
          Cmd.glVertex3fv (ps.getD (i * 3) 0) (ps.getD (i * 3 + 1) 0) (ps.getD (i * 3 + 2) 0) ])
        ++ rest)
      = l.map (fun i =>
          ((cs.getD (i * 3) 0, cs.getD (i * 3 + 1) 0, cs.getD (i * 3 + 2) 0),
           (ps.getD (i * 3) 0, ps.getD (i * 3 + 1) 0, ps.getD (i * 3 + 2) 0)))
        ++ pointsOf rest := by
  induction l with
  | nil => simp
  | cons a t ih =>
    rw [List.flatMap_cons, List.map_cons, List.append_assoc]
    exact congrArg _ ih

theorem pointsOf_glBegin (mode : Primitive) (rest : List Cmd) :
    pointsOf (Cmd.glBegin mode :: rest) = pointsOf rest := by
  rw [pointsOf]
  intro _ _ _ _ _ _ _ hc
  cases hc

theorem pointsOf_glEnd : pointsOf [Cmd.glEnd] = [] := by
  rw [pointsOf, pointsOf]
  intro _ _ _ _ _ _ _ hc
  cases hc

theorem pointsOf_emitParticles (st : ParticleState) :
    pointsOf (emitParticles st)
      = (List.range NUM_PARTICLES).map (fun i =>
          ((st.POINT_COLORS.getD (i * 3) 0, st.POINT_COLORS.getD (i * 3 + 1) 0,
              st.POINT_COLORS.getD (i * 3 + 2) 0),
           (st.POINT_POSITIONS.getD (i * 3) 0, st.POINT_POSITIONS.getD (i * 3 + 1) 0,
              st.POINT_POSITIONS.getD (i * 3 + 2) 0))) := by
  unfold emitParticles
  rw [List.append_assoc, List.singleton_append, pointsOf_glBegin, pointsOf_flatMap,
    pointsOf_glEnd, List.append_nil]

/-! ## Frustum theorems -/

/-- C2: for every window of width w > 0 and height h > 0, the aspect is
(0.5*w)/h (a positive number), frustumHalfHeight is frustumHalfWidth / aspect
(so that frustumHalfHeight * aspect gives frustumHalfWidth back), and
frustumHalfWidth is the same for every other window size and clock reading;
for the 800x400 window the aspect is exactly 1 and frustumHalfHeight equals
frustumHalfWidth. -/
theorem aspect_and_half_height (env : Platform) (w h : Int) (t : ℚ) (hw : 0 < w) (hh : 0 < h) :
    (perspective env w h t).aspect = ((1 / 2 : ℚ) * (w : ℚ)) / (h : ℚ)
    ∧ 0 < (perspective env w h t).aspect
    ∧ (perspective env w h t).frustumHalfHeight
        = (perspective env w h t).frustumHalfWidth / (perspective env w h t).aspect
    ∧ (perspective env w h t).frustumHalfHeight * (perspective env w h t).aspect
        = (perspective env w h t).frustumHalfWidth
    ∧ (∀ (w2 h2 : Int) (t2 : ℚ),
        (perspective env w2 h2 t2).frustumHalfWidth = (perspective env w h t).frustumHalfWidth)
    ∧ (perspective env 800 400 t).aspect = 1
    ∧ (perspective env 800 400 t).frustumHalfHeight
        = (perspective env 800 400 t).frustumHalfWidth := by
  have hwq : (0 : ℚ) < (w : ℚ) := by exact_mod_cast hw
  have hhq : (0 : ℚ) < (h : ℚ) := by exact_mod_cast hh
  have hpos : (0 : ℚ) < ((1 / 2 : ℚ) * (w : ℚ)) / (h : ℚ) := by positivity
  refine ⟨rfl, hpos, rfl, ?_, fun _ _ _ => rfl, ?_, ?_⟩
  · show _ / (((1 / 2 : ℚ) * (w : ℚ)) / (h : ℚ)) * (((1 / 2 : ℚ) * (w : ℚ)) / (h : ℚ)) = _
    exact div_mul_cancel₀ _ (ne_of_gt hpos)
  · show ((1 / 2 : ℚ) * ((800 : Int) : ℚ)) / ((400 : Int) : ℚ) = 1
    norm_num
  · simp only [perspective]
    norm_num

theorem aspect_and_half_height_witness :
    (perspective samplePlatform 512 512 3).aspect = ((1 / 2 : ℚ) * ((512 : Int) : ℚ)) / ((512 : Int) : ℚ)
    ∧ 0 < (perspective samplePlatform 512 512 3).aspect
    ∧ (perspective samplePlatform 512 512 3).frustumHalfHeight
        = (perspective samplePlatform 512 512 3).frustumHalfWidth
            / (perspective samplePlatform 512 512 3).aspect
    ∧ (perspective samplePlatform 512 512 3).frustumHalfHeight
          * (perspective samplePlatform 512 512 3).aspect
        = (perspective samplePlatform 512 512 3).frustumHalfWidth
    ∧ (∀ (w2 h2 : Int) (t2 : ℚ),
        (perspective samplePlatform w2 h2 t2).frustumHalfWidth
          = (perspective samplePlatform 512 512 3).frustumHalfWidth)
    ∧ (perspective samplePlatform 800 400 3).aspect = 1
    ∧ (perspective samplePlatform 800 400 3).frustumHalfHeight
        = (perspective samplePlatform 800 400 3).frustumHalfWidth :=
  aspect_and_half_height samplePlatform 512 512 3 (by decide) (by decide)

/-- C3: for every halfWidth and frustumOffset, rightEyeFrustumLeft +
frustumOffset = -frustumHalfWidth and leftEyeFrustumRight - frustumOffset =
frustumHalfWidth; the same holds of the values renderLoop computes for any
window size and clock reading. -/
theorem offset_symmetry (frustumHalfWidth frustumOffset : ℚ) (env : Platform) (w h : Int)
    (t : ℚ) :
    rightEyeFrustumLeft frustumHalfWidth frustumOffset + frustumOffset = -frustumHalfWidth
    ∧ leftEyeFrustumRight frustumHalfWidth frustumOffset - frustumOffset = frustumHalfWidth
    ∧ (perspective env w h t).rightEyeFrustumLeft + (perspective env w h t).frustumOffset
        = -(perspective env w h t).frustumHalfWidth
    ∧ (perspective env w h t).leftEyeFrustumRight - (perspective env w h t).frustumOffset
        = (perspective env w h t).frustumHalfWidth := by
  simp only [perspective, rightEyeFrustumLeft, leftEyeFrustumRight]
  refine ⟨by ring, by ring, by ring, by ring⟩

/-- C1, as stated, fails: with halfWidth = 1/4 and frustumOffset = 1/24 the
right-eye bounds are not (-halfWidth + offset, halfWidth + offset) and the
left-eye bounds are not (-halfWidth - offset, halfWidth - offset). -/
theorem swapped_bounds_fail :
    rightEyeFrustumLeft (1 / 4) (1 / 24) ≠ -(1 / 4) + 1 / 24
    ∧ rightEyeFrustumRight (1 / 4) (1 / 24) ≠ 1 / 4 + 1 / 24
    ∧ leftEyeFrustumLeft (1 / 4) (1 / 24) ≠ -(1 / 4) - 1 / 24
    ∧ leftEyeFrustumRight (1 / 4) (1 / 24) ≠ 1 / 4 - 1 / 24
    ∧ (perspective samplePlatform 512 512 0).frustumOffset = 1 / 24
    ∧ (perspective samplePlatform 512 512 0).rightEyeFrustumLeft
        ≠ -(perspective samplePlatform 512 512 0).frustumHalfWidth
            + (perspective samplePlatform 512 512 0).frustumOffset := by
  simp only [perspective, rightEyeFrustumLeft, rightEyeFrustumRight, leftEyeFrustumLeft,
    leftEyeFrustumRight]
  norm_num
  intro hEq
  linarith

/-- C1, amended: for every halfWidth and frustumOffset the right-eye bounds
are (-halfWidth - frustumOffset, +halfWidth - frustumOffset) and the left-eye
bounds are (-halfWidth + frustumOffset, +halfWidth + frustumOffset); in
renderLoop they are taken at halfWidth = nearDist*tan(DEG_TO_RAD*fovDegX/2)
and frustumOffset = 0.5*ocularSeparation*(nearDist/focalDist). -/
theorem eye_frustum_bounds (frustumHalfWidth frustumOffset : ℚ) (env : Platform) (w h : Int) (t : ℚ) :
    (rightEyeFrustumLeft frustumHalfWidth frustumOffset,
        rightEyeFrustumRight frustumHalfWidth frustumOffset)
      = (-frustumHalfWidth - frustumOffset, frustumHalfWidth - frustumOffset)
    ∧ (leftEyeFrustumLeft frustumHalfWidth frustumOffset,
        leftEyeFrustumRight frustumHalfWidth frustumOffset)
      = (-frustumHalfWidth + frustumOffset, frustumHalfWidth + frustumOffset)
    ∧ (perspective env w h t).frustumHalfWidth
      = (perspective env w h t).nearDist
          * env.tan (DEG_TO_RAD env * (perspective env w h t).fovDegX / 2)
    ∧ (perspective env w h t).frustumOffset
      = (1 / 2) * (perspective env w h t).ocularSeparation
          * ((perspective env w h t).nearDist / (perspective env w h t).focalDist)
    ∧ ((perspective env w h t).rightEyeFrustumLeft, (perspective env w h t).rightEyeFrustumRight)
      = (-(perspective env w h t).frustumHalfWidth - (perspective env w h t).frustumOffset,
          (perspective env w h t).frustumHalfWidth - (perspective env w h t).frustumOffset)
    ∧ ((perspective env w h t).leftEyeFrustumLeft, (perspective env w h t).leftEyeFrustumRight)
      = (-(perspective env w h t).frustumHalfWidth + (perspective env w h t).frustumOffset,
          (perspective env w h t).frustumHalfWidth + (perspective env w h t).frustumOffset) :=
  ⟨rfl, rfl, rfl, rfl, rfl, rfl⟩

/-! ## Particle theorems -/

theorem sampleRand_bounded (n : Nat) : sampleRand.outputs n ≤ samplePlatform.RAND_MAX := by
  show (n * 7919) % 32768 ≤ 32767
  omega

theorem start_lengths (rng : RandState) :
    (ParticleState.start rng).POINT_COLORS.length = NUM_PARTICLES * 3
    ∧ (ParticleState.start rng).POINT_POSITIONS.length = NUM_PARTICLES * 3 :=
  ⟨List.length_replicate _ _, List.length_replicate _ _⟩

/-- The rounding of 2147483647 = 2^31 - 1 to binary32 is 2^31. -/
theorem roundBinary32_top : roundBinary32 2147483647 = 2147483648 := by
  have hs : roundSignificand 2147483647 1 = (16777216, 7) := by decide
  have hn : ((2147483647 : ℚ)).num.natAbs = 2147483647 := rfl
  have hd : ((2147483647 : ℚ)).den = 1 := rfl
  have h7 : Int.toNat 7 = 7 := rfl
  unfold roundBinary32
  rw [hn, hd, hs]
  norm_num [h7]

/-- The rounding of 2^31 + 1 to binary32 is 2^31. -/
theorem roundBinary32_top_succ : roundBinary32 2147483649 = 2147483648 := by
  have hs : roundSignificand 2147483649 1 = (8388608, 8) := by decide
  have hn : ((2147483649 : ℚ)).num.natAbs = 2147483649 := rfl
  have hd : ((2147483649 : ℚ)).den = 1 := rfl
  have h8 : Int.toNat 8 = 8 := rfl
  unfold roundBinary32
  rw [hn, hd, hs]
  norm_num [h8]

theorem roundBinary32_one : roundBinary32 1 = 1 := by
  have hs : roundSignificand 1 1 = (8388608, -23) := by decide
  have hn : ((1 : ℚ)).num.natAbs = 1 := rfl
  have hd : ((1 : ℚ)).den = 1 := rfl
  have h23 : Int.toNat 23 = 23 := rfl
  unfold roundBinary32
  rw [hn, hd, hs]
  norm_num [h23]

theorem roundBinary32_three : roundBinary32 3 = 3 := by
  have hs : roundSignificand 3 1 = (12582912, -22) := by decide
  have hn : ((3 : ℚ)).num.natAbs = 3 := rfl
  have hd : ((3 : ℚ)).den = 1 := rfl
  have h22 : Int.toNat 22 = 22 := rfl
  unfold roundBinary32
  rw [hn, hd, hs]
  norm_num [h22]

/-- C4 fails on the code where RAND_MAX = 2147483647: when rand() returns
2147483647, float(rand()) and RAND_MAX + 1.0f both round to 2^31 in binary32,
their quotient is 1 and the arm index int(NUM_SPIRAL_ARMS * 1) is 3, for
every particle of the generation loop; the stream is within [0, RAND_MAX],
and in exact arithmetic the same draw gives arm 2. -/
theorem arm_reaches_three (i : Nat) :
    (particleAt gnuPlatform (ParticleState.start topRand) i).arm = 3
    ∧ (∀ n, topRand.outputs n ≤ gnuPlatform.RAND_MAX)
    ∧ 0 < gnuPlatform.RAND_MAX
    ∧ roundBinary32 ((2147483647 : Nat) : ℚ) = 2147483648
    ∧ roundBinary32 (roundBinary32 ((2147483647 : Nat) : ℚ) + 1) = 2147483648
    ∧ toInt ((NUM_SPIRAL_ARMS : ℚ) * (((2147483647 : Nat) : ℚ) / (((2147483647 : Nat) : ℚ) + 1)))
        = 2 := by
  have hcast : ((2147483647 : Nat) : ℚ) = 2147483647 := by norm_num
  have hsum : (2147483648 : ℚ) + 1 = 2147483649 := by norm_num
  have hquot : (2147483648 : ℚ) / 2147483648 = 1 := by norm_num
  have h3 : ((NUM_SPIRAL_ARMS : Int) : ℚ) = 3 := by norm_num [NUM_SPIRAL_ARMS]
  have hprod : (3 : ℚ) * 1 = 3 := by norm_num
  have hint : toInt (3 : ℚ) = 3 := rfl
  refine ⟨?_, fun _ => le_refl _, by decide, ?_, ?_, ?_⟩
  · rw [particleAt_arm]
    show toInt (roundBinary32 ((NUM_SPIRAL_ARMS : ℚ)
      * roundBinary32 (roundBinary32 ((2147483647 : Nat) : ℚ)
          / roundBinary32 (roundBinary32 ((2147483647 : Nat) : ℚ) + 1)))) = 3
    rw [hcast, roundBinary32_top, hsum, roundBinary32_top_succ, hquot, roundBinary32_one, h3,
      hprod, roundBinary32_three, hint]
  · rw [hcast, roundBinary32_top]
  · rw [hcast, roundBinary32_top, hsum, roundBinary32_top_succ]
  · rw [hcast, h3]
    have hnn : (0 : ℚ) ≤ 3 * (2147483647 / (2147483647 + 1)) := by norm_num
    rw [toInt_eq_floor _ hnn, Int.floor_eq_iff]
    norm_num

/-- C5: for every particle i < NUM_PARTICLES generated by the first call of
drawParticles and every stream of rand() outputs in [0, RAND_MAX], with d the
particle's radial distance: |fuzzX| <= d*SPIRAL_WIDTH/2, |fuzzY| <=
d*SPIRAL_WIDTH/2, |fuzzZ| <= 0.5*(1-d)^2*SPIRAL_WIDTH/2, and the z coordinate
stored at index i*3 + 2 of POINT_POSITIONS is exactly fuzzZ. -/
theorem fuzz_bounds (env : Platform) (st : ParticleState) (i : Nat)
    (hmax : 0 < env.RAND_MAX) (hr : ∀ n, st.rng.outputs n ≤ env.RAND_MAX)
    (hi : i < NUM_PARTICLES) (hinit : st.initialized = 0)
    (hc : st.POINT_COLORS.length = NUM_PARTICLES * 3)
    (hp : st.POINT_POSITIONS.length = NUM_PARTICLES * 3) :
    |(particleAt env st i).fuzzX| ≤ (particleAt env st i).distToCenter * SPIRAL_WIDTH / 2
    ∧ |(particleAt env st i).fuzzY| ≤ (particleAt env st i).distToCenter * SPIRAL_WIDTH / 2
    ∧ |(particleAt env st i).fuzzZ|
        ≤ (1 / 2) * (1 - (particleAt env st i).distToCenter) ^ 2 * SPIRAL_WIDTH / 2
    ∧ (drawParticles env st).1.POINT_POSITIONS.getD (i * 3 + 2) 0 = (particleAt env st i).fuzzZ := by
  have hdist := particleAt_distToCenter env st i
  have hd := unit_ratio (st.rng.outputs (st.rng.consumed + 8 * i + 4)) env.RAND_MAX hmax (hr _)
  rw [← hdist] at hd
  have hsw : (0 : ℚ) ≤ SPIRAL_WIDTH := by unfold SPIRAL_WIDTH; norm_num
  obtain ⟨hx, hy, hz⟩ := particleAt_fuzz env st i
  have u5 := unit_ratio (st.rng.outputs (st.rng.consumed + 8 * i + 5)) env.RAND_MAX hmax (hr _)
  have u6 := unit_ratio (st.rng.outputs (st.rng.consumed + 8 * i + 6)) env.RAND_MAX hmax (hr _)
  have u7 := unit_ratio (st.rng.outputs (st.rng.consumed + 8 * i + 7)) env.RAND_MAX hmax (hr _)
  have hcxy : 0 ≤ (particleAt env st i).distToCenter * SPIRAL_WIDTH := mul_nonneg hd.1 hsw
  have hcz : 0 ≤ (1 / 2) * (1 - (particleAt env st i).distToCenter)
      * (1 - (particleAt env st i).distToCenter) * SPIRAL_WIDTH := by
    have hsq := mul_self_nonneg (1 - (particleAt env st i).distToCenter)
    have hhalf : 0 ≤ (1 / 2 : ℚ) * ((1 - (particleAt env st i).distToCenter)
        * (1 - (particleAt env st i).distToCenter)) := mul_nonneg (by norm_num) hsq
    rw [mul_assoc (1 / 2 : ℚ)]
    exact mul_nonneg hhalf hsw
  refine ⟨?_, ?_, ?_, ?_⟩
  · rw [hx]; exact abs_centred_le _ _ hcxy u5.1 u5.2
  · rw [hy]; exact abs_centred_le _ _ hcxy u6.1 u6.2
  · rw [hz]
    have hb := abs_centred_le _ _ hcz u7.1 u7.2
    have hring : (1 / 2) * (1 - (particleAt env st i).distToCenter)
        * (1 - (particleAt env st i).distToCenter) * SPIRAL_WIDTH / 2
        = (1 / 2) * (1 - (particleAt env st i).distToCenter) ^ 2 * SPIRAL_WIDTH / 2 := by ring
    rw [← hring]; exact hb
  · rw [drawParticles_first env st hinit]
    have hstored := generateLoop_stored env NUM_PARTICLES
      { POINT_COLORS := st.POINT_COLORS
        POINT_POSITIONS := st.POINT_POSITIONS
        initialized := 1
        rng := st.rng } i hi (le_of_eq hc.symm) (le_of_eq hp.symm)
    have hsame : particleAt env
        { POINT_COLORS := st.POINT_COLORS
          POINT_POSITIONS := st.POINT_POSITIONS
          initialized := 1
          rng := st.rng } i = particleAt env st i := particleAt_congr env i _ st rfl
    rw [hstored.2.2.2.2.2, hsame]
    rfl

theorem fuzz_bounds_witness :
    |(particleAt samplePlatform (ParticleState.start sampleRand) 5).fuzzX|
        ≤ (particleAt samplePlatform (ParticleState.start sampleRand) 5).distToCenter
            * SPIRAL_WIDTH / 2
    ∧ |(particleAt samplePlatform (ParticleState.start sampleRand) 5).fuzzY|
        ≤ (particleAt samplePlatform (ParticleState.start sampleRand) 5).distToCenter
            * SPIRAL_WIDTH / 2
    ∧ |(particleAt samplePlatform (ParticleState.start sampleRand) 5).fuzzZ|
        ≤ (1 / 2) * (1 - (particleAt samplePlatform (ParticleState.start sampleRand) 5).distToCenter) ^ 2
            * SPIRAL_WIDTH / 2
    ∧ (drawParticles samplePlatform (ParticleState.start sampleRand)).1.POINT_POSITIONS.getD
          (5 * 3 + 2) 0
        = (particleAt samplePlatform (ParticleState.start sampleRand) 5).fuzzZ :=
  fuzz_bounds samplePlatform (ParticleState.start sampleRand) 5 (by decide) sampleRand_bounded
    (by decide) rfl (start_lengths sampleRand).1 (start_lengths sampleRand).2

/-- C6: drawParticles is idempotent after its first call. The first call
(initialized = 0, arrays of NUM_PARTICLES * 3 elements) sets the flag, runs
the generation loop for exactly NUM_PARTICLES = 1024 particles (8 rand() calls
each), keeps both arrays at 1024 * 3 elements and emits exactly 1024 points,
point i being particle i of the loop; every later call returns the same flag,
colour array, position array and generator state, and makes the same calls
(the same 1024 points in the same order) as the first. -/
theorem drawParticles_idempotent (env : Platform) (st : ParticleState)
    (hinit : st.initialized = 0)
    (hc : st.POINT_COLORS.length = NUM_PARTICLES * 3)
    (hp : st.POINT_POSITIONS.length = NUM_PARTICLES * 3) :
    NUM_PARTICLES = 1024
    ∧ (drawParticles env st).1.initialized = 1
    ∧ (drawParticles env st).1.rng.outputs = st.rng.outputs
    ∧ (drawParticles env st).1.rng.consumed = st.rng.consumed + 8 * NUM_PARTICLES
    ∧ (drawParticles env st).1.POINT_COLORS.length = NUM_PARTICLES * 3
    ∧ (drawParticles env st).1.POINT_POSITIONS.length = NUM_PARTICLES * 3
    ∧ (pointsOf (drawParticles env st).2).length = NUM_PARTICLES
    ∧ (∀ i, i < NUM_PARTICLES →
        (pointsOf (drawParticles env st).2)[i]?
          = some (((particleAt env st i).colorR, (particleAt env st i).colorG,
                    (particleAt env st i).colorB),
                  ((particleAt env st i).posX, (particleAt env st i).posY,
                    (particleAt env st i).posZ)))
    ∧ (∀ n,
        (drawParticlesCall env (n + 1) st).1.POINT_COLORS = (drawParticles env st).1.POINT_COLORS
        ∧ (drawParticlesCall env (n + 1) st).1.POINT_POSITIONS
            = (drawParticles env st).1.POINT_POSITIONS
        ∧ (drawParticlesCall env (n + 1) st).1.rng = (drawParticles env st).1.rng
        ∧ (drawParticlesCall env (n + 1) st).1.initialized = 1
        ∧ (drawParticlesCall env (n + 1) st).2 = (drawParticles env st).2
        ∧ pointsOf (drawParticlesCall env (n + 1) st).2 = pointsOf (drawParticles env st).2) := by
  have hfirst := drawParticles_first env st hinit
  have hflag : (drawParticles env st).1.initialized = 1 := by
    rw [hfirst, generateLoop_initialized]
  have hlater : ∀ n, drawParticlesCall env (n + 1) st = drawParticles env st := by
    intro n
    show drawParticlesCall env n (drawParticles env st).1 = _
    rw [drawParticlesCall_later env n _ (drawParticles_initialized env st)]
    rfl
  have hpoints := pointsOf_emitParticles (drawParticles env st).1
  rw [← drawParticles_calls] at hpoints
  refine ⟨rfl, hflag, ?_, ?_, ?_, ?_, ?_, ?_, ?_⟩
  · rw [hfirst, generateLoop_outputs]
  · rw [hfirst, generateLoop_consumed]
  · rw [hfirst, (generateLoop_lengths env _ _).1]; exact hc
  · rw [hfirst, (generateLoop_lengths env _ _).2]; exact hp
  · rw [hpoints, List.length_map, List.length_range]
  · intro i hi
    have hstored := generateLoop_stored env NUM_PARTICLES
      { POINT_COLORS := st.POINT_COLORS
        POINT_POSITIONS := st.POINT_POSITIONS
        initialized := 1
        rng := st.rng } i hi (le_of_eq hc.symm) (le_of_eq hp.symm)
    have hsame : particleAt env
        { POINT_COLORS := st.POINT_COLORS
          POINT_POSITIONS := st.POINT_POSITIONS
          initialized := 1
          rng := st.rng } i = particleAt env st i := particleAt_congr env i _ st rfl
    rw [hsame, ← hfirst] at hstored
    obtain ⟨h0, h1, h2, h3, h4, h5⟩ := hstored
    rw [hpoints, List.getElem?_map, List.getElem?_range hi, Option.map_some']
    simp only [h0, h1, h2, h3, h4, h5]
  · intro n
    rw [hlater n]
    exact ⟨rfl, rfl, rfl, hflag, rfl, rfl⟩

theorem drawParticles_idempotent_witness :
    NUM_PARTICLES = 1024
    ∧ (drawParticles samplePlatform (ParticleState.start sampleRand)).1.initialized = 1
    ∧ (drawParticles samplePlatform (ParticleState.start sampleRand)).1.rng.outputs
        = (ParticleState.start sampleRand).rng.outputs
    ∧ (drawParticles samplePlatform (ParticleState.start sampleRand)).1.rng.consumed
        = (ParticleState.start sampleRand).rng.consumed + 8 * NUM_PARTICLES
    ∧ (drawParticles samplePlatform (ParticleState.start sampleRand)).1.POINT_COLORS.length
        = NUM_PARTICLES * 3
    ∧ (drawParticles samplePlatform (ParticleState.start sampleRand)).1.POINT_POSITIONS.length
        = NUM_PARTICLES * 3
    ∧ (pointsOf (drawParticles samplePlatform (ParticleState.start sampleRand)).2).length
        = NUM_PARTICLES
    ∧ (∀ i, i < NUM_PARTICLES →
        (pointsOf (drawParticles samplePlatform (ParticleState.start sampleRand)).2)[i]?
          = some (((particleAt samplePlatform (ParticleState.start sampleRand) i).colorR,
                    (particleAt samplePlatform (ParticleState.start sampleRand) i).colorG,
                    (particleAt samplePlatform (ParticleState.start sampleRand) i).colorB),
                  ((particleAt samplePlatform (ParticleState.start sampleRand) i).posX,
                    (particleAt samplePlatform (ParticleState.start sampleRand) i).posY,
                    (particleAt samplePlatform (ParticleState.start sampleRand) i).posZ)))
    ∧ (∀ n,
        (drawParticlesCall samplePlatform (n + 1) (ParticleState.start sampleRand)).1.POINT_COLORS
          = (drawParticles samplePlatform (ParticleState.start sampleRand)).1.POINT_COLORS
        ∧ (drawParticlesCall samplePlatform (n + 1)
              (ParticleState.start sampleRand)).1.POINT_POSITIONS
            = (drawParticles samplePlatform (ParticleState.start sampleRand)).1.POINT_POSITIONS
        ∧ (drawParticlesCall samplePlatform (n + 1) (ParticleState.start sampleRand)).1.rng
            = (drawParticles samplePlatform (ParticleState.start sampleRand)).1.rng
        ∧ (drawParticlesCall samplePlatform (n + 1) (ParticleState.start sampleRand)).1.initialized
            = 1
        ∧ (drawParticlesCall samplePlatform (n + 1) (ParticleState.start sampleRand)).2
            = (drawParticles samplePlatform (ParticleState.start sampleRand)).2
        ∧ pointsOf (drawParticlesCall samplePlatform (n + 1) (ParticleState.start sampleRand)).2
            = pointsOf (drawParticles samplePlatform (ParticleState.start sampleRand)).2) :=
  drawParticles_idempotent samplePlatform (ParticleState.start sampleRand) rfl
    (start_lengths sampleRand).1 (start_lengths sampleRand).2

/-! ## Wireframe cube theorems -/

/-- The segments of `drawWireframeCube()`, written out. -/
theorem cubeSegments_eq : cubeSegments =
    [ (⟨COLOR_FRONT, -1/2, -1/2, 1/2⟩, ⟨COLOR_FRONT, 1/2, -1/2, 1/2⟩),
      (⟨COLOR_FRONT, 1/2, -1/2, 1/2⟩, ⟨COLOR_FRONT, 1/2, 1/2, 1/2⟩),
      (⟨COLOR_FRONT, 1/2, 1/2, 1/2⟩, ⟨COLOR_FRONT, -1/2, 1/2, 1/2⟩),
      (⟨COLOR_FRONT, -1/2, 1/2, 1/2⟩, ⟨COLOR_FRONT, -1/2, -1/2, 1/2⟩),
      (⟨COLOR_BACK, -1/2, -1/2, -1/2⟩, ⟨COLOR_BACK, 1/2, -1/2, -1/2⟩),
      (⟨COLOR_BACK, 1/2, -1/2, -1/2⟩, ⟨COLOR_BACK, 1/2, 1/2, -1/2⟩),
      (⟨COLOR_BACK, 1/2, 1/2, -1/2⟩, ⟨COLOR_BACK, -1/2, 1/2, -1/2⟩),
      (⟨COLOR_BACK, -1/2, 1/2, -1/2⟩, ⟨COLOR_BACK, -1/2, -1/2, -1/2⟩),
      (⟨COLOR_INNER, -1/2, -1/2, -1/2⟩, ⟨COLOR_INNER, -1/2, -1/2, 1/2⟩),
      (⟨COLOR_INNER, -1/2, 1/2, -1/2⟩, ⟨COLOR_INNER, -1/2, 1/2, 1/2⟩),
      (⟨COLOR_INNER, 1/2, 1/2, -1/2⟩, ⟨COLOR_INNER, 1/2, 1/2, 1/2⟩),
      (⟨COLOR_INNER, 1/2, -1/2, -1/2⟩, ⟨COLOR_INNER, 1/2, -1/2, 1/2⟩) ] := rfl

theorem cubeSegments_are_edges :
    ∀ s ∈ cubeSegments, isCorner s.1.position ∧ isCorner s.2.position
      ∧ coordsDiffering s.1.position s.2.position = 1 := by
  rw [cubeSegments_eq]
  simp only [List.forall_mem_cons, isCorner, coordsDiffering, Vertex.position, List.not_mem_nil]
  norm_num

theorem cubeSegments_nodup : (cubeSegments.map endPoints).Nodup := by
  rw [cubeSegments_eq]
  simp only [List.map, endPoints, Vertex.position, List.nodup_cons, List.mem_cons, Prod.mk.injEq,
    List.not_mem_nil, List.nodup_nil]
  norm_num

theorem cubeSegments_no_reverse :
    ∀ s ∈ cubeSegments, ∀ s2 ∈ cubeSegments,
      endPoints s ≠ ((endPoints s2).2, (endPoints s2).1) := by
  rw [cubeSegments_eq]
  simp only [List.forall_mem_cons, endPoints, Vertex.position, List.not_mem_nil]
  norm_num

theorem cubeSegments_complete :
    ∀ p q : ℚ × ℚ × ℚ, isCorner p → isCorner q → coordsDiffering p q = 1 →
      (p, q) ∈ cubeSegments.map endPoints ∨ (q, p) ∈ cubeSegments.map endPoints := by
  rw [cubeSegments_eq]
  rintro ⟨x, y, z⟩ ⟨x2, y2, z2⟩ ⟨hx, hy, hz⟩ ⟨hx2, hy2, hz2⟩ hd
  simp only at hx hy hz hx2 hy2 hz2
  rcases hx with rfl | rfl <;> rcases hy with rfl | rfl <;> rcases hz with rfl | rfl <;>
  rcases hx2 with rfl | rfl <;> rcases hy2 with rfl | rfl <;> rcases hz2 with rfl | rfl <;>
  first
    | (exfalso; revert hd; simp only [coordsDiffering]; norm_num; done)
    | (simp only [List.map, endPoints, Vertex.position, List.mem_cons, Prod.mk.injEq,
        List.not_mem_nil]; norm_num)

theorem cubeSegments_colours :
    ∀ s ∈ cubeSegments,
      (s.1.z = 1 / 2 ∧ s.2.z = 1 / 2 → s.1.colour = COLOR_FRONT ∧ s.2.colour = COLOR_FRONT)
      ∧ (s.1.z = -(1 / 2) ∧ s.2.z = -(1 / 2) → s.1.colour = COLOR_BACK ∧ s.2.colour = COLOR_BACK)
      ∧ (s.1.x = s.2.x ∧ s.1.y = s.2.y ∧ s.1.z ≠ s.2.z →
          s.1.colour = COLOR_INNER ∧ s.2.colour = COLOR_INNER) := by
  rw [cubeSegments_eq]
  simp only [List.forall_mem_cons, List.not_mem_nil]
  norm_num

theorem cubeSegments_counts :
    (cubeSegments.filter (fun s => decide (s.1.z = 1 / 2 ∧ s.2.z = 1 / 2))).length = 4
    ∧ (cubeSegments.filter (fun s => decide (s.1.z = -(1 / 2) ∧ s.2.z = -(1 / 2)))).length = 4
    ∧ (cubeSegments.filter
        (fun s => decide (s.1.x = s.2.x ∧ s.1.y = s.2.y ∧ s.1.z ≠ s.2.z))).length = 4 := by
  rw [cubeSegments_eq]
  simp only [List.filter]
  norm_num

/-- C8: drawWireframeCube (a constant call list: no parameter, no state, so
the same on every call) emits exactly 24 vertices forming 12 line segments;
every segment joins two corners of the cube (+-0.5, +-0.5, +-0.5) that differ
in exactly one coordinate; no edge is drawn twice, in either direction; every
edge of the cube is drawn; the 4 edges with z = +0.5 carry COLOR_FRONT, the 4
edges with z = -0.5 carry COLOR_BACK and the 4 edges parallel to the z axis
carry COLOR_INNER. -/
theorem cube_is_twelve_edges :
    (verticesOf (0, 0, 0) drawWireframeCube).length = 24
    ∧ cubeSegments.length = 12
    ∧ (∀ s ∈ cubeSegments, isCorner s.1.position ∧ isCorner s.2.position
        ∧ coordsDiffering s.1.position s.2.position = 1)
    ∧ (cubeSegments.map endPoints).Nodup
    ∧ (∀ s ∈ cubeSegments, ∀ s2 ∈ cubeSegments,
        endPoints s ≠ ((endPoints s2).2, (endPoints s2).1))
    ∧ (∀ p q : ℚ × ℚ × ℚ, isCorner p → isCorner q → coordsDiffering p q = 1 →
        (p, q) ∈ cubeSegments.map endPoints ∨ (q, p) ∈ cubeSegments.map endPoints)
    ∧ (∀ s ∈ cubeSegments,
        (s.1.z = 1 / 2 ∧ s.2.z = 1 / 2 → s.1.colour = COLOR_FRONT ∧ s.2.colour = COLOR_FRONT)
        ∧ (s.1.z = -(1 / 2) ∧ s.2.z = -(1 / 2) →
            s.1.colour = COLOR_BACK ∧ s.2.colour = COLOR_BACK)
        ∧ (s.1.x = s.2.x ∧ s.1.y = s.2.y ∧ s.1.z ≠ s.2.z →
            s.1.colour = COLOR_INNER ∧ s.2.colour = COLOR_INNER))
    ∧ (cubeSegments.filter (fun s => decide (s.1.z = 1 / 2 ∧ s.2.z = 1 / 2))).length = 4
    ∧ (cubeSegments.filter (fun s => decide (s.1.z = -(1 / 2) ∧ s.2.z = -(1 / 2)))).length = 4
    ∧ (cubeSegments.filter
        (fun s => decide (s.1.x = s.2.x ∧ s.1.y = s.2.y ∧ s.1.z ≠ s.2.z))).length = 4
    ∧ COLOR_FRONT = (165, 0, 0) ∧ COLOR_BACK = (0, 125, 0) ∧ COLOR_INNER = (0, 0, 155) :=
  ⟨rfl, rfl, cubeSegments_are_edges, cubeSegments_nodup, cubeSegments_no_reverse,
    cubeSegments_complete, cubeSegments_colours, cubeSegments_counts.1, cubeSegments_counts.2.1,
    cubeSegments_counts.2.2, rfl, rfl, rfl⟩

/-! ## Render loop theorems -/

theorem handleEvent_closed (st : LoopState) (event : Event) (h : st.isOpen = false) :
    (handleEvent st event).isOpen = false := by
  cases event <;> first | exact h | rfl

theorem pollEvents_closed (events : List Event) (st : LoopState) (h : st.isOpen = false) :
    (pollEvents st events).isOpen = false := by
  induction events generalizing st with
  | nil => exact h
  | cons e rest ih => exact ih (handleEvent st e) (handleEvent_closed st e h)

/-- Once a Closed event is among the polled events the window is closed. -/
theorem pollEvents_of_mem_closed (events : List Event) (st : LoopState)
    (h : Event.Closed ∈ events) : (pollEvents st events).isOpen = false := by
  induction events generalizing st with
  | nil => cases h
  | cons e rest ih =>
    rcases List.mem_cons.mp h with heq | hmem
    · subst heq
      exact pollEvents_closed rest _ rfl
    · exact ih (handleEvent st e) hmem

theorem renderLoop_closed (env : Platform) (frames : List (List Event × ℚ)) (st : LoopState)
    (h : st.isOpen = false) : renderLoop env frames st = (st, []) := by
  cases frames with
  | nil => rfl
  | cons frame rest => simp [renderLoop, h]

/-- C7, as stated, fails: in the iteration that polls a Closed event from the
start state, the window is closed by the event and the iteration still emits
draw commands afterwards: it clears the buffers, sets both viewports and
presents the frame. -/
theorem closed_iteration_still_draws :
    Event.Closed ∈ [Event.Closed]
    ∧ (pollEvents (LoopState.start sampleRand) [Event.Closed]).isOpen = false
    ∧ Cmd.glClear ∈
        (renderIteration samplePlatform (LoopState.start sampleRand) [Event.Closed] 0).2
    ∧ Cmd.glViewport 0 0 256 512 ∈
        (renderIteration samplePlatform (LoopState.start sampleRand) [Event.Closed] 0).2
    ∧ Cmd.glViewport 257 0 256 512 ∈
        (renderIteration samplePlatform (LoopState.start sampleRand) [Event.Closed] 0).2
    ∧ Cmd.display ∈
        (renderIteration samplePlatform (LoopState.start sampleRand) [Event.Closed] 0).2
    ∧ ¬ (∀ c ∈ (renderIteration samplePlatform (LoopState.start sampleRand) [Event.Closed] 0).2,
          c.isDraw = false) := by
  have hhalf : Int.tdiv INITIAL_W 2 = 256 := by decide
  have hclear : Cmd.glClear ∈
      (renderIteration samplePlatform (LoopState.start sampleRand) [Event.Closed] 0).2 := by
    simp [renderIteration, drawFrame]
  have hdisplay : Cmd.display ∈
      (renderIteration samplePlatform (LoopState.start sampleRand) [Event.Closed] 0).2 := by
    simp [renderIteration, drawFrame]
  have hleft : Cmd.glViewport 0 0 256 512 ∈
      (renderIteration samplePlatform (LoopState.start sampleRand) [Event.Closed] 0).2 := by
    have hmem : Cmd.glViewport 0 0 256 512
        ∈ drawLeftSide (perspective samplePlatform INITIAL_W INITIAL_H 0) INITIAL_W INITIAL_H
            (drawParticles samplePlatform (ParticleState.start sampleRand)).2 := by
      unfold drawLeftSide
      rw [hhalf]
      simp [INITIAL_H]
    show _ ∈ _ ++ _ ++ drawLeftSide _ _ _ _ ++ _ ++ _
    simp only [List.mem_append]
    exact Or.inl (Or.inl (Or.inr hmem))
  have hright : Cmd.glViewport 257 0 256 512 ∈
      (renderIteration samplePlatform (LoopState.start sampleRand) [Event.Closed] 0).2 := by
    have hmem : Cmd.glViewport 257 0 256 512
        ∈ drawRightSide (perspective samplePlatform INITIAL_W INITIAL_H 0) INITIAL_W INITIAL_H
            (drawParticles samplePlatform
              (drawParticles samplePlatform (ParticleState.start sampleRand)).1).2 := by
      unfold drawRightSide
      rw [hhalf]
      simp [INITIAL_H]
    show _ ∈ _ ++ _ ++ _ ++ drawRightSide _ _ _ _ ++ _
    simp only [List.mem_append]
    exact Or.inl (Or.inr hmem)
  refine ⟨List.mem_singleton.mpr rfl, rfl, hclear, hleft, hright, hdisplay, ?_⟩
  intro hall
  have hfalse := hall Cmd.glClear hclear
  cases hfalse

/-- C7, amended: for every iteration begun with the window open in which a
Closed event is among the polled events, the iteration still draws its whole
frame: its calls are the parameter print (if due), the clear of the buffers,
the complete left-side pass, the complete right-side pass (each with
viewport, frustum, view transform, cube and particles) and the present call;
the window is closed when the iteration ends, and the loop exits at the next
test of its condition: it makes no call of any later iteration, whatever the
host would have delivered. -/
theorem closed_exits_after_frame (env : Platform) (st : LoopState) (events : List Event)
    (t : ℚ) (rest : List (List Event × ℚ)) (hopen : st.isOpen = true)
    (hclosed : Event.Closed ∈ events) :
    (renderIteration env st events t).1.isOpen = false
    ∧ (renderIteration env st events t).2
        = printParams (pollEvents st events).printed
            (perspective env (pollEvents st events).w (pollEvents st events).h t)
          ++ [Cmd.glClear]
          ++ drawLeftSide (perspective env (pollEvents st events).w (pollEvents st events).h t)
              (pollEvents st events).w (pollEvents st events).h
              (drawParticles env (pollEvents st events).particles).2
          ++ drawRightSide (perspective env (pollEvents st events).w (pollEvents st events).h t)
              (pollEvents st events).w (pollEvents st events).h
              (drawParticles env (pollEvents st events).particles).2
          ++ [Cmd.display]
    ∧ Cmd.glClear ∈ (renderIteration env st events t).2
    ∧ Cmd.glViewport 0 0 (Int.tdiv (pollEvents st events).w 2) (pollEvents st events).h
        ∈ (renderIteration env st events t).2
    ∧ Cmd.glViewport (Int.tdiv (pollEvents st events).w 2 + 1) 0
          (Int.tdiv (pollEvents st events).w 2) (pollEvents st events).h
        ∈ (renderIteration env st events t).2
    ∧ drawWireframeCube.length = 50
    ∧ (drawParticles env (pollEvents st events).particles).2.length = 2 * NUM_PARTICLES + 2
    ∧ (renderIteration env st events t).2.getLast? = some Cmd.display
    ∧ renderLoop env rest (renderIteration env st events t).1
        = ((renderIteration env st events t).1, [])
    ∧ renderLoop env ((events, t) :: rest) st = renderIteration env st events t := by
  have hshut : (renderIteration env st events t).1.isOpen = false :=
    pollEvents_of_mem_closed events st hclosed
  have hrest := renderLoop_closed env rest _ hshut
  have hframe : (renderIteration env st events t).2
      = printParams (pollEvents st events).printed
          (perspective env (pollEvents st events).w (pollEvents st events).h t)
        ++ [Cmd.glClear]
        ++ drawLeftSide (perspective env (pollEvents st events).w (pollEvents st events).h t)
            (pollEvents st events).w (pollEvents st events).h
            (drawParticles env (pollEvents st events).particles).2
        ++ drawRightSide (perspective env (pollEvents st events).w (pollEvents st events).h t)
            (pollEvents st events).w (pollEvents st events).h
            (drawParticles env (pollEvents st events).particles).2
        ++ [Cmd.display] := by
    show _ ++ _ ++ drawLeftSide _ _ _ _
        ++ drawRightSide _ _ _
            (drawParticles env (drawParticles env (pollEvents st events).particles).1).2
        ++ _ = _
    rw [drawParticles_twice]
  refine ⟨hshut, hframe, ?_, ?_, ?_, rfl, ?_, ?_, hrest, ?_⟩
  · rw [hframe]; simp
  · rw [hframe]; simp [drawLeftSide]
  · rw [hframe]; simp [drawRightSide]
  · exact emitParticles_length _
  · rw [hframe]
    exact List.getLast?_concat _
  · show (if st.isOpen = true then _ else _) = _
    rw [if_pos hopen]
    show ((renderLoop env rest (renderIteration env st events t).1).1,
      (renderIteration env st events t).2
        ++ (renderLoop env rest (renderIteration env st events t).1).2) = _
    rw [hrest, List.append_nil]

theorem closed_exits_after_frame_witness :
    (renderIteration samplePlatform (LoopState.start sampleRand)
        [Event.Resized 800 400, Event.Closed] 1).1.isOpen = false
    ∧ renderLoop samplePlatform
          (([Event.Resized 800 400, Event.Closed], 1) :: [([Event.Other], 2)])
          (LoopState.start sampleRand)
        = renderIteration samplePlatform (LoopState.start sampleRand)
            [Event.Resized 800 400, Event.Closed] 1
    ∧ Cmd.glViewport 0 0
          (Int.tdiv (pollEvents (LoopState.start sampleRand)
            [Event.Resized 800 400, Event.Closed]).w 2)
          (pollEvents (LoopState.start sampleRand) [Event.Resized 800 400, Event.Closed]).h
        ∈ (renderIteration samplePlatform (LoopState.start sampleRand)
            [Event.Resized 800 400, Event.Closed] 1).2
    ∧ Cmd.glViewport
          (Int.tdiv (pollEvents (LoopState.start sampleRand)
            [Event.Resized 800 400, Event.Closed]).w 2 + 1) 0
          (Int.tdiv (pollEvents (LoopState.start sampleRand)
            [Event.Resized 800 400, Event.Closed]).w 2)
          (pollEvents (LoopState.start sampleRand) [Event.Resized 800 400, Event.Closed]).h
        ∈ (renderIteration samplePlatform (LoopState.start sampleRand)
            [Event.Resized 800 400, Event.Closed] 1).2
    ∧ (renderIteration samplePlatform (LoopState.start sampleRand)
        [Event.Resized 800 400, Event.Closed] 1).2.getLast? = some Cmd.display :=
  have h := closed_exits_after_frame samplePlatform (LoopState.start sampleRand)
    [Event.Resized 800 400, Event.Closed] 1 [([Event.Other], 2)] rfl (by decide)
  ⟨h.1, h.2.2.2.2.2.2.2.2.2, h.2.2.2.1, h.2.2.2.2.1, h.2.2.2.2.2.2.2.1⟩

theorem drawLeftSide_eq_eyePass (env : Platform) (w h : Int) (t : ℚ) (particles : List Cmd) :
    drawLeftSide (perspective env w h t) w h particles
      = eyePass 0 (perspective env w h t).rightEyeFrustumLeft
          (perspective env w h t).rightEyeFrustumRight
          (-(perspective env w h t).ocularSeparation / 2) w h
          (perspective env w h t).aspect (perspective env w h t).frustumHalfHeight
          (perspective env w h t).nearDist (perspective env w h t).farDist
          (perspective env w h t).rotationAmtDeg drawWireframeCube particles := by
  have hspin : -(perspective env w h t).rotationAmtDeg * 2
      = -2 * (perspective env w h t).rotationAmtDeg := by ring
  unfold drawLeftSide eyePass
  rw [hspin]
  rfl

theorem drawRightSide_eq_eyePass (env : Platform) (w h : Int) (t : ℚ) (particles : List Cmd) :
    drawRightSide (perspective env w h t) w h particles
      = eyePass (Int.tdiv w 2 + 1) (perspective env w h t).leftEyeFrustumLeft
          (perspective env w h t).leftEyeFrustumRight
          ((perspective env w h t).ocularSeparation / 2) w h
          (perspective env w h t).aspect (perspective env w h t).frustumHalfHeight
          (perspective env w h t).nearDist (perspective env w h t).farDist
          (perspective env w h t).rotationAmtDeg drawWireframeCube particles := by
  have hspin : -(perspective env w h t).rotationAmtDeg * 2
      = -2 * (perspective env w h t).rotationAmtDeg := by ring
  unfold drawRightSide eyePass
  rw [hspin]
  rfl

/-- C9: in every frame, the pass into the left viewport (x = 0) loads the
right-eye frustum bounds and the view translation -ocularSeparation/2 along
x, the pass into the right viewport (x = w/2 + 1) loads the left-eye frustum
bounds and the view translation +ocularSeparation/2, and apart from the
viewport rectangle, the frustum's horizontal bounds and the sign of the x
translation both passes are the same call sequence `eyePass`: z translation
-(nearDist + 0.5), scale 0.45 with y divided by the aspect, the same cube
rotation and cube, galaxy scale 0.5, tilt 30 degrees, spin of -2 times the
rotation angle, and the same particle calls. -/
theorem two_passes_mirror (env : Platform) (st : LoopState) (t : ℚ) :
    (drawFrame env st t).2
      = printParams st.printed (perspective env st.w st.h t)
        ++ [Cmd.glClear]
        ++ eyePass 0 (perspective env st.w st.h t).rightEyeFrustumLeft
            (perspective env st.w st.h t).rightEyeFrustumRight
            (-(perspective env st.w st.h t).ocularSeparation / 2) st.w st.h
            (perspective env st.w st.h t).aspect (perspective env st.w st.h t).frustumHalfHeight
            (perspective env st.w st.h t).nearDist (perspective env st.w st.h t).farDist
            (perspective env st.w st.h t).rotationAmtDeg drawWireframeCube
            (drawParticles env st.particles).2
        ++ eyePass (Int.tdiv st.w 2 + 1) (perspective env st.w st.h t).leftEyeFrustumLeft
            (perspective env st.w st.h t).leftEyeFrustumRight
            ((perspective env st.w st.h t).ocularSeparation / 2) st.w st.h
            (perspective env st.w st.h t).aspect (perspective env st.w st.h t).frustumHalfHeight
            (perspective env st.w st.h t).nearDist (perspective env st.w st.h t).farDist
            (perspective env st.w st.h t).rotationAmtDeg drawWireframeCube
            (drawParticles env st.particles).2
        ++ [Cmd.display]
    ∧ (∀ (events : List Event) (s0 : LoopState),
        (renderIteration env s0 events t).2 = (drawFrame env (pollEvents s0 events) t).2) := by
  refine ⟨?_, fun _ _ => rfl⟩
  show printParams st.printed (perspective env st.w st.h t) ++ [Cmd.glClear]
      ++ drawLeftSide (perspective env st.w st.h t) st.w st.h (drawParticles env st.particles).2
      ++ drawRightSide (perspective env st.w st.h t) st.w st.h
          (drawParticles env (drawParticles env st.particles).1).2
      ++ [Cmd.display] = _
  rw [drawParticles_twice, drawLeftSide_eq_eyePass, drawRightSide_eq_eyePass]

/-- C10 at the initial window size 512 x 512: the left viewport is (0, 0, 256,
512) and the right viewport is (257, 0, 256, 512); both are 256 = floor(w/2)
wide and 512 high and they do not overlap, but the right one ends at x = 513,
one pixel beyond the window's horizontal extent [0, 512]. Both rectangles are
set in the first frame drawn from the start state. For every size the
rectangles are (0, 0, w/2, h) and (w/2 + 1, 0, w/2, h), and for every even
w >= 2 the right one ends at w + 1. -/
theorem right_viewport_overshoots (env : Platform) (p : Perspective) (particles : List Cmd)
    (rng : RandState) (t : ℚ) :
    firstViewport (drawLeftSide p INITIAL_W INITIAL_H particles) = some (0, 0, 256, 512)
    ∧ firstViewport (drawRightSide p INITIAL_W INITIAL_H particles) = some (257, 0, 256, 512)
    ∧ rightEdge (0, 0, 256, 512) ≤ 257
    ∧ rightEdge (257, 0, 256, 512) = 513
    ∧ INITIAL_W < rightEdge (257, 0, 256, 512)
    ∧ Cmd.glViewport 0 0 256 512 ∈ (renderIteration env (LoopState.start rng) [] t).2
    ∧ Cmd.glViewport 257 0 256 512 ∈ (renderIteration env (LoopState.start rng) [] t).2
    ∧ (∀ w h : Int,
        firstViewport (drawLeftSide p w h particles) = some (0, 0, Int.tdiv w 2, h)
        ∧ firstViewport (drawRightSide p w h particles)
            = some (Int.tdiv w 2 + 1, 0, Int.tdiv w 2, h))
    ∧ (∀ w h : Int, 2 ≤ w → w % 2 = 0 →
        rightEdge (Int.tdiv w 2 + 1, 0, Int.tdiv w 2, h) = w + 1) := by
  have hhalf : Int.tdiv INITIAL_W 2 = 256 := by decide
  refine ⟨rfl, rfl, by decide, by decide, by decide, ?_, ?_, fun _ _ => ⟨rfl, rfl⟩, ?_⟩
  · have hmem : Cmd.glViewport 0 0 256 512
        ∈ drawLeftSide (perspective env INITIAL_W INITIAL_H t) INITIAL_W INITIAL_H
            (drawParticles env (ParticleState.start rng)).2 := by
      unfold drawLeftSide
      rw [hhalf]
      simp [INITIAL_H]
    show _ ∈ _ ++ _ ++ drawLeftSide _ _ _ _ ++ _ ++ _
    simp only [List.mem_append]
    exact Or.inl (Or.inl (Or.inr hmem))
  · have hmem : Cmd.glViewport 257 0 256 512
        ∈ drawRightSide (perspective env INITIAL_W INITIAL_H t) INITIAL_W INITIAL_H
            (drawParticles env (drawParticles env (ParticleState.start rng)).1).2 := by
      unfold drawRightSide
      rw [hhalf]
      simp [INITIAL_H]
    show _ ∈ _ ++ _ ++ _ ++ drawRightSide _ _ _ _ ++ _
    simp only [List.mem_append]
    exact Or.inl (Or.inr hmem)
  · intro w h hw heven
    have hdiv : Int.tdiv w 2 = w / 2 := Int.tdiv_eq_ediv (by omega) (by decide)
    show Int.tdiv w 2 + 1 + Int.tdiv w 2 = w + 1
    rw [hdiv]
    omega

end StereoGalaxy
